import Mathlib

/-!
# Verification of the `minfo` media-metadata extractor

Shallow embedding of `minfo.py`, the single-module media-metadata reader:
it runs two external tools (an EXIF reader and `ffprobe`), parses their
text/JSON output, and answers lookups with EXIF-over-stream precedence.

Modelling conventions, used consistently below:

* Python values reaching the normalization logic are modelled by `PyVal`:
  `None`, booleans, `int`, `float`, `str`, lists, tuples and dicts
  (dicts as ordered association lists, as JSON-derived dicts are).
* Python `float`s here only ever arise from `float()` applied to parsed
  text, so they are modelled exactly as `PyFloat`: a decimal mantissa
  times a power of ten, or one of the special values `nan` / `±inf` that
  `float()` also accepts (case-insensitively, as `nan`, `inf`,
  `infinity`).  Binary rounding is not modelled: the theorems about
  integer-to-float conversion are bounded to magnitudes below `2 ^ 53`,
  where the conversion is exact and cannot raise `OverflowError`.
* Raising an exception is modelled by `Except PyErr`; a Python function
  that cannot raise returns a plain value.  `None` returned for "absent"
  is the value `PyVal.vNone`, exactly as in Python.
* String manipulation (`strip`, `split`, slicing, `find`) is implemented
  structurally over `List Char` so that every definition evaluates by
  `rfl`; each helper is the direct transcription of the Python primitive
  it names, including PEP 515 underscore digit separators in `int()` and
  `float()` and the ASCII part of Python's whitespace.  Non-ASCII corners
  (Unicode digits, non-ASCII whitespace) are not modelled.
* The external processes themselves are out of scope: the two tool
  outputs are the inputs of record construction.  The standard-library
  `json.loads` is external to the repository as well; record
  construction is therefore parameterized over the JSON parser, and a
  concrete executable parser `jsonLoadsModel` (modelled from the spec's
  probe-parsing contract) instantiates it in closed statements.
-/

/-- A Python exception kind, as far as this program can raise one. -/
inductive PyErr where
  | valueError
  | typeError
  | keyError
  | indexError
  | attributeError
  | jsonError
deriving DecidableEq, Repr

/-- A Python `float` as this program can produce one: the exact decimal
value `mantissa * 10 ^ exp10` of a parsed literal or a converted small
int, or one of the special values `nan` / `±inf` that `float()` accepts
as the spellings `nan`, `inf`, `infinity`.  The program never does float
arithmetic, so no rounding is involved. -/
inductive PyFloat where
  | finite (mantissa : Int) (exp10 : Int)
  | nan
  | inf (neg : Bool)
deriving DecidableEq, Repr

/-- A Python value as handled by the normalization logic: `None`, `bool`,
`int`, `float`, `str`, `list`, `tuple`, and `dict` (an ordered association
list with string keys, which is all `json.loads` produces here). -/
inductive PyVal where
  | vNone
  | vBool (b : Bool)
  | vInt (n : Int)
  | vFloat (f : PyFloat)
  | vStr (s : String)
  | vList (xs : List PyVal)
  | vTuple (xs : List PyVal)
  | vDict (fields : List (String × PyVal))
deriving Repr

/-! ## Python string primitives, structurally on `List Char` -/

/-- Python whitespace test (the ASCII part of `str.isspace()`, which is
also what `str.strip()`, `int()` and `float()` strip): space, `\t`-`\r`,
and the separator control characters `\x1c`-`\x1f`. -/
def pyIsSpace (c : Char) : Bool :=
  c == ' ' || c == '\t' || c == '\n' || c == '\r' || c == '\x0b' || c == '\x0c' ||
    c == '\x1c' || c == '\x1d' || c == '\x1e' || c == '\x1f'

/-- Python `str.strip()` on a character list: drop whitespace on both ends. -/
def pyStripChars (cs : List Char) : List Char :=
  ((cs.dropWhile pyIsSpace).reverse.dropWhile pyIsSpace).reverse

/-- Python `str.strip()`. -/
def pyStrip (s : String) : String :=
  (pyStripChars s.toList).asString

/-- Python `str.split('\n')` on a character list: `''.split('\n')` is
`['']`, one (possibly empty) piece per newline-separated segment. -/
def pySplitNl : List Char → List (List Char)
  | [] => [[]]
  | c :: rest =>
    if c = '\n' then [] :: pySplitNl rest
    else
      match pySplitNl rest with
      | [] => [[c]]
      | line :: more => (c :: line) :: more

/-- Python `str.find(c)`: index of the first occurrence, or `-1`. -/
def pyFindChar (cs : List Char) (c : Char) : Int :=
  match cs with
  | [] => -1
  | x :: rest =>
    if x = c then 0
    else
      match pyFindChar rest c with
      | -1 => -1
      | n => n + 1

/-- Python slice `s[:i]` on a character list (negative `i` counts from the
end, clamped at zero). -/
def pySliceTo (cs : List Char) (i : Int) : List Char :=
  if 0 ≤ i then cs.take i.toNat
  else cs.take (cs.length - (-i).toNat)

/-- Python slice `s[i:]` on a character list (negative `i` counts from the
end, clamped at zero). -/
def pySliceFrom (cs : List Char) (i : Int) : List Char :=
  if 0 ≤ i then cs.drop i.toNat
  else cs.drop (cs.length - (-i).toNat)

/-! ## Python numeric coercion: `int(value)` and `float(value)` -/

/-- Digit run to a natural number. -/
def pyDigitsToNat (ds : List Char) : Nat :=
  ds.foldl (fun a c => 10 * a + (c.toNat - '0'.toNat)) 0

/-- Validity of a digit/underscore block per PEP 515, as `int()` and
`float()` accept one: nonempty, starting and ending with a digit, with no
two adjacent underscores — given the block holds only digits and
underscores, that is exactly "every underscore between two digits". -/
def pyDigitBlockValid (cs : List Char) : Bool :=
  match cs with
  | [] => false
  | c :: _ =>
    c.isDigit &&
      (match cs.getLast? with
       | some d => d.isDigit
       | none => false) &&
      (cs.zip cs.tail).all (fun p => !(p.1 == '_' && p.2 == '_'))

/-- An optional PEP 515 digit run: the maximal block of digits and
underscores at the head of the input.  An empty block is allowed (the
caller decides whether the run may be absent); a nonempty block must be
valid, else the literal is rejected — as in Python, where a stray
underscore anywhere invalidates the whole literal.  On success, the
digits with underscores removed, and the remainder. -/
def pyOptDigitRun (cs : List Char) : Option (List Char × List Char) :=
  let raw := cs.takeWhile (fun c => c.isDigit || c == '_')
  if raw = [] then some ([], cs)
  else if pyDigitBlockValid raw then
    some (raw.filter Char.isDigit, cs.dropWhile (fun c => c.isDigit || c == '_'))
  else none

/-- Python `int(s)` on a string: optional surrounding whitespace, optional
sign, then a nonempty digit run (underscore separators allowed between
digits, PEP 515); anything else raises `ValueError` (returned as
`none`). -/
def pyIntOfString (s : String) : Option Int :=
  let cs := pyStripChars s.toList
  let sgn : Bool × List Char :=
    match cs with
    | '+' :: r => (false, r)
    | '-' :: r => (true, r)
    | _ => (false, cs)
  match pyOptDigitRun sgn.2 with
  | some (ds, []) =>
    if ds ≠ [] then
      some (if sgn.1 then -(pyDigitsToNat ds : Int) else (pyDigitsToNat ds : Int))
    else none
  | _ => none

/-- ASCII lowercasing, for `float()`'s case-insensitive special
spellings. -/
def pyLowerAscii (c : Char) : Char :=
  if 'A' ≤ c ∧ c ≤ 'Z' then Char.ofNat (c.toNat + 32) else c

/-- The special spellings `float()` accepts after the optional sign,
case-insensitively: `nan`, `inf`, `infinity`. -/
def pyFloatSpecial (neg : Bool) (cs : List Char) : Option PyFloat :=
  match cs.map pyLowerAscii with
  | ['n', 'a', 'n'] => some .nan
  | ['i', 'n', 'f'] => some (.inf neg)
  | ['i', 'n', 'f', 'i', 'n', 'i', 't', 'y'] => some (.inf neg)
  | _ => none

/-- Negation of a Python float value. -/
def pyFloatNeg : PyFloat → PyFloat
  | .finite m e => .finite (-m) e
  | .nan => .nan
  | .inf b => .inf (!b)

/-- Unsigned decimal part of Python's `float(s)` literal grammar:
`digits [. digits] [(e|E) [sign] digits]` with at least one mantissa
digit, every digit run with PEP 515 underscores; returns the exact
decimal value. -/
def pyFloatBody (cs : List Char) : Option PyFloat :=
  match pyOptDigitRun cs with
  | none => none
  | some (ip, rest1) =>
    let fpRes : Option (List Char × List Char) :=
      match rest1 with
      | '.' :: t => pyOptDigitRun t
      | _ => some ([], rest1)
    match fpRes with
    | none => none
    | some (fp, rest2) =>
      -- at least one mantissa digit: "1", "1.", ".5" are floats, "." is not
      if ip = [] ∧ fp = [] then none
      else
        let mant : Int := (pyDigitsToNat (ip ++ fp) : Int)
        match rest2 with
        | [] => some (.finite mant (-(fp.length : Int)))
        | e :: t =>
          if e = 'e' ∨ e = 'E' then
            let sgnT : Bool × List Char :=
              match t with
              | '+' :: t2 => (false, t2)
              | '-' :: t2 => (true, t2)
              | _ => (false, t)
            -- the remainder after the exponent sign must be exactly a
            -- nonempty digit run
            match pyOptDigitRun sgnT.2 with
            | some (eds, []) =>
              if eds ≠ [] then
                let ev : Int :=
                  if sgnT.1 then -(pyDigitsToNat eds : Int) else (pyDigitsToNat eds : Int)
                some (.finite mant (ev - (fp.length : Int)))
              else none
            | _ => none
          else none

/-- Python `float(s)` on a string: optional surrounding whitespace,
optional sign, then either a special spelling (`nan`, `inf`, `infinity`,
case-insensitive) or a decimal literal; anything else raises `ValueError`
(returned as `none`). -/
def pyFloatOfString (s : String) : Option PyFloat :=
  let cs := pyStripChars s.toList
  let sgn : Bool × List Char :=
    match cs with
    | '+' :: r => (false, r)
    | '-' :: r => (true, r)
    | _ => (false, cs)
  match pyFloatSpecial sgn.1 sgn.2 with
  | some f => some f
  | none =>
    (pyFloatBody sgn.2).map (fun f => if sgn.1 then pyFloatNeg f else f)

/-- One pass of the coercion loop's first iteration, `value = int(value)`
under `try/except ValueError`: on a string, replace it by the parsed `int`
when `int()` succeeds, otherwise keep the value unchanged. -/
def pyTryInt (v : PyVal) : PyVal :=
  match v with
  | .vStr s =>
    match pyIntOfString s with
    | some n => .vInt n
    | none => v
  | _ => v

/-- Second iteration of the coercion loop, `value = float(value)` under
`try/except ValueError`: `float` of a string succeeds exactly on float
literals and special spellings, and `float` of a just-parsed `int`
overwrites it with the converted float.  The int conversion is exact (and
cannot raise) for magnitudes below `2 ^ 53`; from `2 ^ 1024` on Python
raises `OverflowError`, which `except ValueError` would not catch — the
theorems about integer-coerced values are therefore bounded below
`2 ^ 53`, where this equation is the program's behavior. -/
def pyTryFloat (v : PyVal) : PyVal :=
  match v with
  | .vStr s =>
    match pyFloatOfString s with
    | some f => .vFloat f
    | none => v
  | .vInt n => .vFloat (.finite n 0)
  | _ => v

/-- The value-coercion loop of `_exif_parser`:
`for typ in (int, float): try: value = typ(value) except ValueError: pass`.
Note there is no `break`: both coercions are attempted in order, each
applied to the current value. -/
def coerceValue (s : String) : PyVal :=
  pyTryFloat (pyTryInt (.vStr s))

/-! ## EXIF parsing (`_exif_parser` in the source) -/

/-- One line of `_exif_parser`'s loop: split at the first colon
(`line.find(':')`, which is `-1` when absent), strip both halves, and
coerce the value. -/
def parseExifLine (line : List Char) : String × PyVal :=
  let idx := pyFindChar line ':'
  let key := (pyStripChars (pySliceTo line idx)).asString
  let value := (pyStripChars (pySliceFrom line (idx + 1))).asString
  (key, coerceValue value)

/-- The EXIF text parser (`_exif_parser` in the source, renamed): split the
tool output at newlines and parse every line. -/
def exifParser (data : String) : List (String × PyVal) :=
  (pySplitNl data.toList).map parseExifLine

/-! ## The metadata record and the two lookup tiers -/

/-- The `MInfo` record after `_setup`: the source file path, the parsed
EXIF pair sequence, and the `streams` / `format` values stored directly
from the probe JSON (dynamic, so their shape is whatever the JSON held). -/
structure MInfo where
  path : String
  exif : List (String × PyVal)
  streams : PyVal
  format : PyVal

/-- Python `==` between a `str` EXIF key and a lookup key that is a string
or `None`: `str == None` is `False`, so a `None` key matches nothing. -/
def pyKeyEq (entryKey : String) (key : Option String) : Bool :=
  match key with
  | some k => entryKey == k
  | none => false

/-- The loop of `_exif_data`: return the value of the first pair whose key
equals `key`; falling off the loop returns `None`. -/
def exifLookupLoop (entries : List (String × PyVal)) (key : Option String) : PyVal :=
  match entries with
  | [] => .vNone
  | (k, v) :: rest => if pyKeyEq k key then v else exifLookupLoop rest key

/-- `_exif_data` in the source: scan the record's EXIF pairs for the key. -/
def _exif_data (m : MInfo) (key : Option String) : PyVal :=
  exifLookupLoop m.exif key

/-- Python list indexing `xs[i]` (negative indices count from the end);
out of range raises `IndexError`. -/
def pyListIndex (xs : List PyVal) (i : Int) : Except PyErr PyVal :=
  let j : Int := if i < 0 then i + xs.length else i
  if 0 ≤ j then
    match xs.get? j.toNat with
    | some x => .ok x
    | none => .error .indexError
  else .error .indexError

/-- Python subscription `v[i]` with an `int` index, on a JSON-derived
value: lists and tuples index (or raise `IndexError`), strings index into
one-character strings, dicts raise `KeyError` (their keys are strings, so
an `int` key is absent), everything else raises `TypeError`. -/
def pySubscriptInt (v : PyVal) (i : Int) : Except PyErr PyVal :=
  match v with
  | .vList xs => pyListIndex xs i
  | .vTuple xs => pyListIndex xs i
  | .vStr s => pyListIndex (s.toList.map (fun c => PyVal.vStr c.toString)) i
  | .vDict _ => .error .keyError
  | _ => .error .typeError

/-- Python `stream.get(key)` where `key` is a string or `None`: on a dict,
the value when present and `None` when absent (a `None` key is absent from
a JSON-derived dict, whose keys are all strings); on anything else the
attribute access `.get` itself raises `AttributeError`. -/
def pyDictGet (v : PyVal) (key : Option String) : Except PyErr PyVal :=
  match v with
  | .vDict fields =>
    match key with
    | some k => .ok ((fields.lookup k).getD .vNone)
    | none => .ok .vNone
  | _ => .error .attributeError

/-- `_stream_data` in the source: index the record's `streams`, turning
`IndexError` (and only `IndexError`) into `None`, then `.get` the key. -/
def _stream_data (m : MInfo) (stream_index : Int) (key : Option String) : Except PyErr PyVal :=
  match pySubscriptInt m.streams stream_index with
  | .error .indexError => .ok .vNone
  | .error e => .error e
  | .ok stream => pyDictGet stream key

/-- `_find_data` in the source: EXIF tier first (`keys.1`), stream tier
(`keys.2`) only when the EXIF tier returned `None`.  Every caller in the
source leaves `stream_index` at its default `0`; it is passed explicitly
here. -/
def _find_data (m : MInfo) (keys : Option String × Option String)
    (stream_index : Int) : Except PyErr PyVal :=
  match _exif_data m keys.1 with
  | .vNone => _stream_data m stream_index keys.2
  | v => .ok v

/-! ## Derived properties -/

/-- The `resolution` property: two lookups combined into a tuple, except
that the all-`None` tuple is replaced by `None` itself
(`if resolution != (None, None): return resolution`, and falling off the
property returns `None`). -/
def MInfo.resolution (m : MInfo) : Except PyErr PyVal :=
  match _find_data m (some "Source Image Width", some "width") 0 with
  | .error e => .error e
  | .ok xres =>
    match _find_data m (some "Source Image Height", some "height") 0 with
    | .error e => .error e
    | .ok yres =>
      match xres, yres with
      | .vNone, .vNone => .ok .vNone
      | _, _ => .ok (.vTuple [xres, yres])

/-- The `fps` property: a bare unified lookup. -/
def MInfo.fps (m : MInfo) : Except PyErr PyVal :=
  _find_data m (some "Video Frame Rate", some "r_frame_rate") 0

/-- Python `'s' in v`: substring test on a string (a one-character needle,
so membership of the character), element membership on lists and tuples,
key membership on dicts (`'s' == x` is true exactly for the string `"s"`),
and a `TypeError` on non-container values such as numbers. -/
def pyInS (v : PyVal) : Except PyErr Bool :=
  match v with
  | .vStr s => .ok (s.toList.contains 's')
  | .vList xs => .ok (xs.any (fun x => match x with | .vStr t => t == "s" | _ => false))
  | .vTuple xs => .ok (xs.any (fun x => match x with | .vStr t => t == "s" | _ => false))
  | .vDict fields => .ok (fields.any (fun kv => kv.1 == "s"))
  | _ => .error .typeError

/-- Python slice `v[:-1]`: drop the last element of a string, list or
tuple; slicing anything else raises `TypeError`. -/
def pySliceDropLast (v : PyVal) : Except PyErr PyVal :=
  match v with
  | .vStr s => .ok (.vStr (s.toList.take (s.toList.length - 1)).asString)
  | .vList xs => .ok (.vList (xs.take (xs.length - 1)))
  | .vTuple xs => .ok (.vTuple (xs.take (xs.length - 1)))
  | _ => .error .typeError

/-- The Python builtin `float(v)` applied to a value: parse strings
(raising `ValueError` on failure), convert numbers, and raise `TypeError`
on containers and `None`.  The source applies this builtin only to the
sliced lookup value (`float(duration[:-1])`), never to an `int`; the int
branch carries the same sub-`2 ^ 53` exactness caveat as the coercion
loop. -/
def pyFloatFn (v : PyVal) : Except PyErr PyVal :=
  match v with
  | .vStr s =>
    match pyFloatOfString s with
    | some f => .ok (.vFloat f)
    | none => .error .valueError
  | .vInt n => .ok (.vFloat (.finite n 0))
  | .vFloat f => .ok (.vFloat f)
  | .vBool b => .ok (.vFloat (.finite (if b then 1 else 0) 0))
  | _ => .error .typeError

/-- The `duration` property: unified lookup, then
`if duration is not None and 's' in duration: duration = float(duration[:-1])`.
Note the membership test is `'s' in duration` — anywhere in the value, not
a suffix check — and it is applied to whatever value the lookup returned. -/
def MInfo.duration (m : MInfo) : Except PyErr PyVal :=
  match _find_data m (some "Duration", some "duration") 0 with
  | .error e => .error e
  | .ok d =>
    match d with
    | .vNone => .ok .vNone
    | _ =>
      match pyInS d with
      | .error e => .error e
      | .ok b =>
        if b then
          match pySliceDropLast d with
          | .error e => .error e
          | .ok d1 => pyFloatFn d1
        else .ok d

/-- The `camera_model` property: EXIF-only lookup. -/
def MInfo.camera_model (m : MInfo) : Except PyErr PyVal :=
  _find_data m (some "Camera Model Name", none) 0

/-- The `camera_lens` property: EXIF-only lookup. -/
def MInfo.camera_lens (m : MInfo) : Except PyErr PyVal :=
  _find_data m (some "Lens Type", none) 0

/-- The `aperture` property: EXIF-only lookup. -/
def MInfo.aperture (m : MInfo) : Except PyErr PyVal :=
  _find_data m (some "Aperture", none) 0

/-- The `focal_length` property: EXIF-only lookup. -/
def MInfo.focal_length (m : MInfo) : Except PyErr PyVal :=
  _find_data m (some "Focal Length", none) 0

/-- The `iso` property: EXIF-only lookup. -/
def MInfo.iso (m : MInfo) : Except PyErr PyVal :=
  _find_data m (some "ISO", none) 0

/-- The `shutter_speed` property: EXIF-only lookup. -/
def MInfo.shutter_speed (m : MInfo) : Except PyErr PyVal :=
  _find_data m (some "Shutter Speed", none) 0

/-- The `color_temp` property: EXIF-only lookup. -/
def MInfo.color_temp (m : MInfo) : Except PyErr PyVal :=
  _find_data m (some "Color Temp Kelvin", none) 0

/-- The `white_balance` property: EXIF-only lookup. -/
def MInfo.white_balance (m : MInfo) : Except PyErr PyVal :=
  _find_data m (some "White Balance", none) 0

/-! ## Record construction (`__init__` / `_setup` plus `_ffprobe`)

The two tool invocations are out of scope; their captured stdout texts are
the inputs.  `json.loads` is the Python standard library, external to the
repository, so construction is parameterized over it. -/

/-- Python subscription `probe[k]` with a string key: on a dict the stored
value, or `KeyError` when absent; on any other JSON-derived top-level
value, `TypeError`. -/
def pySubscriptStr (v : PyVal) (k : String) : Except PyErr PyVal :=
  match v with
  | .vDict fields =>
    match fields.lookup k with
    | some x => .ok x
    | none => .error .keyError
  | _ => .error .typeError

/-- `MInfo.__init__` / `MInfo._setup`: parse the EXIF tool output, parse
the probe output as JSON (any failure propagates — there is no local
`try/except`), and store `probe['streams']` and `probe['format']`
directly. -/
def setup (jsonLoads : String → Except PyErr PyVal)
    (path exifOut probeOut : String) : Except PyErr MInfo :=
  match jsonLoads probeOut with
  | .error e => .error e
  | .ok probe =>
    match pySubscriptStr probe "streams" with
    | .error e => .error e
    | .ok streams =>
      match pySubscriptStr probe "format" with
      | .error e => .error e
      | .ok fmt => .ok (MInfo.mk path (exifParser exifOut) streams fmt)

/-! ## A concrete JSON parser modelling `json.loads`

Modelled from the spec: the probe-parsing contract of §4.3 — "parse as
JSON; fail with a ParseError if the text is not valid JSON" — names the
standard-library `json.loads`, which is outside `src/`.  The model below
is an executable strict RFC-8259 parser mapping JSON values onto Python
values the way `json.loads` does: `null` to `None`, integer literals to
`int`, other numeric literals to `float`, objects to insertion-ordered
dicts in which a repeated key overwrites in place.  It is written as a
character-level tokenizer plus a stack machine over the token list, both
structurally recursive, so closed calls evaluate by `rfl`. -/

/-- Overwriting insertion into an insertion-ordered dict: a repeated key
keeps its original position with the new value, a fresh key appends. -/
def pyDictSet (fields : List (String × PyVal)) (k : String) (v : PyVal) :
    List (String × PyVal) :=
  if fields.any (fun kv => kv.1 == k) then
    fields.map (fun kv => if kv.1 == k then (k, v) else kv)
  else fields ++ [(k, v)]

/-- A JSON token: punctuation or a completed scalar literal. -/
inductive JTok where
  | lcurly
  | rcurly
  | lsq
  | rsq
  | comma
  | colon
  | lit (v : PyVal)
deriving Repr

/-- JSON whitespace. -/
def jsonWs (c : Char) : Bool :=
  c == ' ' || c == '\t' || c == '\n' || c == '\r'

/-- Value of a hexadecimal digit, for `\u` escapes. -/
def jsonHexVal (c : Char) : Option Nat :=
  if '0' ≤ c ∧ c ≤ '9' then some (c.toNat - '0'.toNat)
  else if 'a' ≤ c ∧ c ≤ 'f' then some (c.toNat - 'a'.toNat + 10)
  else if 'A' ≤ c ∧ c ≤ 'F' then some (c.toNat - 'A'.toNat + 10)
  else none

/-- Single-character JSON string escapes. -/
def jsonEscape (c : Char) : Option Char :=
  if c = '"' then some '"'
  else if c = '\\' then some '\\'
  else if c = '/' then some '/'
  else if c = 'b' then some (Char.ofNat 8)
  else if c = 'f' then some (Char.ofNat 12)
  else if c = 'n' then some '\n'
  else if c = 'r' then some '\r'
  else if c = 't' then some '\t'
  else none

/-- Body of a JSON string after the opening quote: decoded characters and
the remainder after the closing quote.  Control characters must be
escaped; a bad escape or an unterminated string fails. -/
def jsonStrBody : List Char → Option (List Char × List Char)
  | [] => none
  | '"' :: rest => some ([], rest)
  | '\\' :: rest =>
    match rest with
    | 'u' :: h1 :: h2 :: h3 :: h4 :: rest2 =>
      match jsonHexVal h1, jsonHexVal h2, jsonHexVal h3, jsonHexVal h4 with
      | some a, some b, some c, some d =>
        (jsonStrBody rest2).map
          (fun p => (Char.ofNat (((a * 16 + b) * 16 + c) * 16 + d) :: p.1, p.2))
      | _, _, _, _ => none
    | e :: rest2 =>
      match jsonEscape e with
      | some c => (jsonStrBody rest2).map (fun p => (c :: p.1, p.2))
      | none => none
    | [] => none
  | c :: rest =>
    if c.toNat < 32 then none
    else (jsonStrBody rest).map (fun p => (c :: p.1, p.2))

/-- A JSON number starting at the head of the input: strict grammar
`-? (0 | [1-9][0-9]*) (. [0-9]+)? ([eE][+-]?[0-9]+)?`; an integer literal
becomes a Python `int`, any fraction or exponent makes it a `float`, as in
`json.loads`. -/
def jsonNum (cs : List Char) : Option (PyVal × List Char) :=
  let sgnRest : Bool × List Char :=
    match cs with
    | '-' :: t => (true, t)
    | _ => (false, cs)
  let neg := sgnRest.1
  let cs1 := sgnRest.2
  let ip := cs1.takeWhile Char.isDigit
  let rest1 := cs1.dropWhile Char.isDigit
  if ip = [] then none
  else if 1 < ip.length ∧ ip.head? = some '0' then none
  else
    let fpRest : Option (List Char) × List Char :=
      match rest1 with
      | '.' :: t => (some (t.takeWhile Char.isDigit), t.dropWhile Char.isDigit)
      | _ => (none, rest1)
    match fpRest.1 with
    | some [] => none
    | fracDigits =>
      let fp := fracDigits.getD []
      let rest2 := fpRest.2
      let expRest : Option (Bool × List Char) × List Char :=
        match rest2 with
        | 'e' :: '+' :: t => (some (false, t.takeWhile Char.isDigit), t.dropWhile Char.isDigit)
        | 'e' :: '-' :: t => (some (true, t.takeWhile Char.isDigit), t.dropWhile Char.isDigit)
        | 'e' :: t => (some (false, t.takeWhile Char.isDigit), t.dropWhile Char.isDigit)
        | 'E' :: '+' :: t => (some (false, t.takeWhile Char.isDigit), t.dropWhile Char.isDigit)
        | 'E' :: '-' :: t => (some (true, t.takeWhile Char.isDigit), t.dropWhile Char.isDigit)
        | 'E' :: t => (some (false, t.takeWhile Char.isDigit), t.dropWhile Char.isDigit)
        | _ => (none, rest2)
      match expRest.1 with
      | some (_, []) => none
      | expPart =>
        let rest3 := expRest.2
        let mantNat := pyDigitsToNat (ip ++ fp)
        let mant : Int := if neg then -(mantNat : Int) else (mantNat : Int)
        match fracDigits, expPart with
        | none, none => some (.vInt mant, rest3)
        | _, _ =>
          let ev : Int :=
            match expPart with
            | some (true, eds) => -(pyDigitsToNat eds : Int)
            | some (false, eds) => (pyDigitsToNat eds : Int)
            | none => 0
          some (.vFloat (.finite mant (ev - (fp.length : Int))), rest3)

/-- The JSON tokenizer: one token or whitespace character consumed per
step, so `fuel` larger than the input length suffices. -/
def jsonTokenize : Nat → List Char → Option (List JTok)
  | 0, _ => none
  | _ + 1, [] => some []
  | fuel + 1, c :: cs =>
    if jsonWs c then jsonTokenize fuel cs
    else if c = Char.ofNat 123 then (jsonTokenize fuel cs).map (JTok.lcurly :: ·)
    else if c = Char.ofNat 125 then (jsonTokenize fuel cs).map (JTok.rcurly :: ·)
    else if c = '[' then (jsonTokenize fuel cs).map (JTok.lsq :: ·)
    else if c = ']' then (jsonTokenize fuel cs).map (JTok.rsq :: ·)
    else if c = ',' then (jsonTokenize fuel cs).map (JTok.comma :: ·)
    else if c = ':' then (jsonTokenize fuel cs).map (JTok.colon :: ·)
    else if c = '"' then
      match jsonStrBody cs with
      | some (body, rest) => (jsonTokenize fuel rest).map (JTok.lit (.vStr body.asString) :: ·)
      | none => none
    else if c = '-' ∨ c.isDigit then
      match jsonNum (c :: cs) with
      | some (v, rest) => (jsonTokenize fuel rest).map (JTok.lit v :: ·)
      | none => none
    else
      match c :: cs with
      | 'n' :: 'u' :: 'l' :: 'l' :: rest => (jsonTokenize fuel rest).map (JTok.lit .vNone :: ·)
      | 't' :: 'r' :: 'u' :: 'e' :: rest => (jsonTokenize fuel rest).map (JTok.lit (.vBool true) :: ·)
      | 'f' :: 'a' :: 'l' :: 's' :: 'e' :: rest => (jsonTokenize fuel rest).map (JTok.lit (.vBool false) :: ·)
      | _ => none

/-- A frame of the JSON parsing stack: an array collecting elements, or an
object collecting members with the key whose value is pending. -/
inductive JFrame where
  | arr (acc : List PyVal)
  | obj (acc : List (String × PyVal)) (key : String)

/-- The parsing phase: expecting a value, or having just completed one. -/
inductive JPhase where
  | pvalue
  | pdone (v : PyVal)

/-- The JSON stack machine over the token list.  Strict: every comma must
be followed by another element or member, every member key is a string
followed by a colon, and the input must be exactly one value.  Every step
consumes at least one token, so `fuel` beyond the token count suffices. -/
def jsonRun : Nat → List JFrame → JPhase → List JTok → Option PyVal
  | 0, _, _, _ => none
  | _ + 1, stack, .pdone v, [] =>
    match stack with
    | [] => some v
    | _ => none
  | _ + 1, _, .pvalue, [] => none
  | fuel + 1, stack, .pvalue, t :: ts =>
    match t with
    | .lit v => jsonRun fuel stack (.pdone v) ts
    | .lsq =>
      match ts with
      | .rsq :: ts2 => jsonRun fuel stack (.pdone (.vList [])) ts2
      | _ => jsonRun fuel (.arr [] :: stack) .pvalue ts
    | .lcurly =>
      match ts with
      | .rcurly :: ts2 => jsonRun fuel stack (.pdone (.vDict [])) ts2
      | .lit (.vStr k) :: .colon :: ts2 => jsonRun fuel (.obj [] k :: stack) .pvalue ts2
      | _ => none
    | _ => none
  | fuel + 1, stack, .pdone v, t :: ts =>
    match stack with
    | [] => none
    | .arr acc :: stack2 =>
      match t with
      | .comma => jsonRun fuel (.arr (acc ++ [v]) :: stack2) .pvalue ts
      | .rsq => jsonRun fuel stack2 (.pdone (.vList (acc ++ [v]))) ts
      | _ => none
    | .obj acc k :: stack2 =>
      match t, ts with
      | .comma, .lit (.vStr k2) :: .colon :: ts2 =>
        jsonRun fuel (.obj (pyDictSet acc k v) k2 :: stack2) .pvalue ts2
      | .rcurly, _ => jsonRun fuel stack2 (.pdone (.vDict (pyDictSet acc k v))) ts
      | _, _ => none

/-- Modelled from the spec: `json.loads` (§4.3 "parse as JSON; fail with a
ParseError if the text is not valid JSON").  Tokenize, then run the stack
machine on exactly one JSON value; any failure is the parse error. -/
def jsonLoadsModel (s : String) : Except PyErr PyVal :=
  let cs := s.toList
  match jsonTokenize (cs.length + 1) cs with
  | none => .error .jsonError
  | some toks =>
    match jsonRun (toks.length + 1) [] .pvalue toks with
    | some v => .ok v
    | none => .error .jsonError

/-! ## Supporting lemmas -/

/-- The value-coercion loop yields an `int`, `float` or `str` — never
Python `None`. -/
theorem coerceValue_ne_vNone (s : String) : coerceValue s ≠ PyVal.vNone := by
  rcases h1 : pyIntOfString s with _ | n
  · rcases h2 : pyFloatOfString s with _ | f
    · simp [coerceValue, pyTryInt, pyTryFloat, h1, h2]
    · simp [coerceValue, pyTryInt, pyTryFloat, h1, h2]
  · simp [coerceValue, pyTryInt, pyTryFloat, h1]

/-- Every pair produced by the EXIF parser carries a non-`None` value. -/
theorem exifParser_snd_ne_vNone (raw : String) :
    ∀ p ∈ exifParser raw, p.2 ≠ PyVal.vNone := by
  intro p hp
  rcases List.mem_map.mp hp with ⟨line, _, rfl⟩
  exact coerceValue_ne_vNone _

/-- A `None` lookup key matches no EXIF entry: the scan falls through. -/
theorem exifLookupLoop_none (entries : List (String × PyVal)) :
    exifLookupLoop entries none = PyVal.vNone := by
  induction entries with
  | nil => rfl
  | cons hd tl ih =>
    obtain ⟨k, v⟩ := hd
    simp [exifLookupLoop, pyKeyEq, ih]

/-- The EXIF scan returns the value of the first entry whose key matches. -/
theorem exifLookupLoop_first (pre : List (String × PyVal)) (ek : String)
    (v : PyVal) (post : List (String × PyVal))
    (hpre : ∀ p ∈ pre, p.1 ≠ ek) :
    exifLookupLoop (pre ++ (ek, v) :: post) (some ek) = v := by
  induction pre with
  | nil => simp [exifLookupLoop, pyKeyEq]
  | cons hd tl ih =>
    obtain ⟨k, w⟩ := hd
    have hk : k ≠ ek := hpre (k, w) (by simp)
    simp only [List.cons_append, exifLookupLoop, pyKeyEq, beq_iff_eq]
    rw [if_neg hk]
    exact ih (fun p hp => hpre p (List.mem_cons_of_mem _ hp))

/-- A successful Python list indexing returns an element of the list. -/
theorem pyListIndex_ok_mem (xs : List PyVal) (i : Int) (x : PyVal)
    (h : pyListIndex xs i = .ok x) : x ∈ xs := by
  simp only [pyListIndex] at h
  by_cases h0 : 0 ≤ (if i < 0 then i + (xs.length : Int) else i)
  · rw [if_pos h0] at h
    rcases hg : xs.get? (if i < 0 then i + (xs.length : Int) else i).toNat with _ | y <;>
      rw [hg] at h
    · exact absurd h (by simp)
    · obtain rfl : y = x := by simpa using h
      exact List.get?_mem hg
  · rw [if_neg h0] at h
    exact absurd h (by simp)

/-! ## The claims -/

/-- Claim C1: unified lookup precedence — whenever the record's EXIF pair
sequence (as produced by the EXIF parser) contains an entry for `exifKey`,
`_find_data` returns the value of the first such entry, whatever the
stream tier holds; the stream tier is consulted only when no EXIF entry
matches.  (The first matching entry is phrased as a `pre ++ (ek, v) :: post`
split with no match in `pre`.) -/
theorem c1_exif_precedence (m : MInfo) (raw : String) (ek : String)
    (sk : Option String) (i : Int) (v : PyVal)
    (pre post : List (String × PyVal))
    (hm : m.exif = exifParser raw)
    (hsplit : exifParser raw = pre ++ (ek, v) :: post)
    (hpre : ∀ p ∈ pre, p.1 ≠ ek) :
    _find_data m (some ek, sk) i = Except.ok v := by
  have hv : v ≠ PyVal.vNone := by
    have hmem : (ek, v) ∈ exifParser raw := by rw [hsplit]; simp
    exact exifParser_snd_ne_vNone raw (ek, v) hmem
  have he : _exif_data m (some ek) = v := by
    show exifLookupLoop m.exif (some ek) = v
    rw [hm, hsplit]
    exact exifLookupLoop_first pre ek v post hpre
  unfold _find_data
  rw [he]
  cases v <;> first | rfl | exact absurd rfl hv

/-- Witness for C1: a record whose EXIF text holds `Focus Mode : Manual`
and whose stream dict also has data; the EXIF value wins. -/
theorem c1_exif_precedence_witness :
    _find_data
      (MInfo.mk "clip.mov" (exifParser "ISO : 100\nFocus Mode : Manual")
        (PyVal.vList [PyVal.vDict [("r_frame_rate", PyVal.vStr "30/1")]])
        (PyVal.vDict []))
      (some "Focus Mode", some "r_frame_rate") 0 = Except.ok (PyVal.vStr "Manual") := by
  exact c1_exif_precedence _ "ISO : 100\nFocus Mode : Manual" "Focus Mode"
    (some "r_frame_rate") 0 (PyVal.vStr "Manual")
    [("ISO", PyVal.vFloat (.finite 100 0))] [] rfl rfl (by simp)

/-- Claim C2 (counterexample): the line `"ISO  : 100"` does not parse to
the integer-coerced pair — the coercion loop has no `break`, so the
successful `int()` coercion is immediately overwritten by `float()`, and
the stored value is the float `100.0`, not the int `100` (the module's own
docstring shows `iso: 100.0`). -/
theorem c2_exif_coercion_counterexample :
    exifParser "ISO  : 100" = [("ISO", PyVal.vFloat (.finite 100 0))] ∧
    exifParser "ISO  : 100" ≠ [("ISO", PyVal.vInt 100)] := by
  refine ⟨rfl, fun h => ?_⟩
  rw [show exifParser "ISO  : 100" = [("ISO", PyVal.vFloat (.finite 100 0))] from rfl] at h
  simp at h

/-- Claim C2 (amended): the parser splits at the first colon, trims, and
attempts `int` then `float` on the value, each applied to the current
value, keeping the **last** successful coercion: a value accepted by
`int()` ends up floating-point (so `"ISO  : 100"` parses to
`("ISO", 100.0)`), and a value rejected by both coercions stays a string
(so `"Focus Mode : Manual"` parses to `("Focus Mode", "Manual")`).  The
integer conjunct is bounded to magnitudes below `2 ^ 53`, where Python's
`float(int)` is exact and cannot raise the uncaught `OverflowError`. -/
theorem c2_exif_coercion_amended :
    exifParser "ISO  : 100" = [("ISO", PyVal.vFloat (.finite 100 0))] ∧
    exifParser "Focus Mode : Manual" = [("Focus Mode", PyVal.vStr "Manual")] ∧
    (∀ s n, pyIntOfString s = some n → n.natAbs < 2 ^ 53 →
      coerceValue s = PyVal.vFloat (.finite n 0)) ∧
    (∀ s, pyIntOfString s = none → pyFloatOfString s = none →
      coerceValue s = PyVal.vStr s) := by
  refine ⟨rfl, rfl, ?_, ?_⟩
  · intro s n h _
    simp [coerceValue, pyTryInt, pyTryFloat, h]
  · intro s h1 h2
    simp [coerceValue, pyTryInt, pyTryFloat, h1, h2]

/-- Witness for C2 (amended), at concrete coercion inputs; the last two
conjuncts check that the faithful `float()` model accepts `nan` and an
underscore-separated literal, so neither discharges the string case. -/
theorem c2_exif_coercion_witness :
    (coerceValue "100" = PyVal.vFloat (.finite 100 0) ∧
      coerceValue "Manual" = PyVal.vStr "Manual") ∧
    pyFloatOfString "nan" = some PyFloat.nan ∧
    pyIntOfString "1_0" = some 10 :=
  ⟨⟨c2_exif_coercion_amended.2.2.1 "100" 100 rfl (by decide),
    c2_exif_coercion_amended.2.2.2 "Manual" rfl rfl⟩, rfl, rfl⟩

/-- Claim C3 (counterexample): on empty input the parser does not produce
an empty sequence — Python's `''.split('\n')` is `['']`, so the single
empty line yields the one pair `("", "")`. -/
theorem c3_empty_input_counterexample :
    exifParser "" = [("", PyVal.vStr "")] ∧
    exifParser "" ≠ ([] : List (String × PyVal)) := by
  refine ⟨rfl, fun h => ?_⟩
  rw [show exifParser "" = [("", PyVal.vStr "")] from rfl] at h
  simp at h

/-- Claim C3 (amended): when the input text is the empty string the parser
does not raise; it produces the one-element sequence holding the pair of
empty strings (an artifact of splitting the empty string at newlines). -/
theorem c3_empty_input_amended :
    exifParser "" = [("", PyVal.vStr "")] := rfl

/-- Claim C9: a `None` `exifKey` makes the unified lookup coincide exactly
with the stream-tier lookup, for every record, stream index, and stream
key — no EXIF entry can compare equal to `None`, so the EXIF tier
contributes nothing. -/
theorem c9_null_exif_key (m : MInfo) (i : Int) (sk : Option String) :
    _find_data m (none, sk) i = _stream_data m i sk := by
  unfold _find_data _exif_data
  rw [exifLookupLoop_none]

/-- Claim C5: when both the width and the height lookup return `None`,
the `resolution` property is itself `None` — not the tuple of two `None`
components, which is a different value. -/
theorem c5_resolution_both_absent (m : MInfo)
    (hx : _find_data m (some "Source Image Width", some "width") 0 = Except.ok PyVal.vNone)
    (hy : _find_data m (some "Source Image Height", some "height") 0 = Except.ok PyVal.vNone) :
    m.resolution = Except.ok PyVal.vNone ∧
    (Except.ok PyVal.vNone : Except PyErr PyVal) ≠
      Except.ok (PyVal.vTuple [PyVal.vNone, PyVal.vNone]) := by
  refine ⟨?_, by simp⟩
  simp [MInfo.resolution, hx, hy]

/-- Witness for C5: an audio-only record — no EXIF dimension tags, no
streams — has an absent resolution. -/
theorem c5_resolution_both_absent_witness :
    (MInfo.mk "audio.wav" (exifParser "Bit Rate : 128")
      (PyVal.vList []) (PyVal.vDict [])).resolution = Except.ok PyVal.vNone :=
  (c5_resolution_both_absent
    (MInfo.mk "audio.wav" (exifParser "Bit Rate : 128")
      (PyVal.vList []) (PyVal.vDict [])) rfl rfl).1

/-- Claim C10: when exactly one of the width/height lookups finds a value,
`resolution` is present: the tuple with the found value in its slot and
`None` in the other — the special case collapses only the all-`None`
tuple. -/
theorem c10_partial_resolution (m : MInfo) :
    (∀ x, _find_data m (some "Source Image Width", some "width") 0 = Except.ok x →
      x ≠ PyVal.vNone →
      _find_data m (some "Source Image Height", some "height") 0 = Except.ok PyVal.vNone →
      m.resolution = Except.ok (PyVal.vTuple [x, PyVal.vNone])) ∧
    (∀ y, _find_data m (some "Source Image Width", some "width") 0 = Except.ok PyVal.vNone →
      _find_data m (some "Source Image Height", some "height") 0 = Except.ok y →
      y ≠ PyVal.vNone →
      m.resolution = Except.ok (PyVal.vTuple [PyVal.vNone, y])) := by
  constructor
  · intro x hx hxne hy
    simp only [MInfo.resolution, hx, hy]
    cases x <;> first | rfl | exact absurd rfl hxne
  · intro y hx hy hyne
    simp only [MInfo.resolution, hx, hy]
    cases y <;> first | rfl | exact absurd rfl hyne

/-- Witness for C10: a record knowing only its width reports the pair
`(1280.0, None)`, not an absent resolution. -/
theorem c10_partial_resolution_witness :
    (MInfo.mk "clip.mov" (exifParser "Source Image Width : 1280")
      (PyVal.vList []) (PyVal.vDict [])).resolution =
      Except.ok (PyVal.vTuple [PyVal.vFloat (.finite 1280 0), PyVal.vNone]) :=
  (c10_partial_resolution _).1 (PyVal.vFloat (.finite 1280 0)) rfl (by simp) rfl

/-- A failing Python list indexing raises exactly `IndexError`. -/
theorem pyListIndex_error_indexError (xs : List PyVal) (i : Int) (e : PyErr)
    (h : pyListIndex xs i = .error e) : e = PyErr.indexError := by
  simp only [pyListIndex] at h
  by_cases h0 : 0 ≤ (if i < 0 then i + (xs.length : Int) else i)
  · rw [if_pos h0] at h
    rcases hg : xs.get? (if i < 0 then i + (xs.length : Int) else i).toNat with _ | y <;>
      rw [hg] at h
    · simpa using h.symm
    · exact absurd h (by simp)
  · rw [if_neg h0] at h
    simpa using h.symm

/-- Claim C6: on a record whose `streams` value is a genuine
StreamDescriptor sequence (a list of dicts), the stream-tier lookup is
total: it always returns (never raises), an out-of-range index yields
`None`, and an in-range descriptor without the key also yields `None`. -/
theorem c6_stream_lookup_total (m : MInfo) (l : List PyVal) (i : Int) (key : Option String)
    (hs : m.streams = PyVal.vList l)
    (hd : ∀ x ∈ l, ∃ fields, x = PyVal.vDict fields) :
    (∃ v, _stream_data m i key = Except.ok v) ∧
    (pyListIndex l i = Except.error PyErr.indexError →
      _stream_data m i key = Except.ok PyVal.vNone) ∧
    (∀ fields, pyListIndex l i = Except.ok (PyVal.vDict fields) →
      (∀ k, key = some k → fields.lookup k = none) →
      _stream_data m i key = Except.ok PyVal.vNone) := by
  refine ⟨?_, ?_, ?_⟩
  · rcases hpi : pyListIndex l i with e | x
    · have he : e = PyErr.indexError := pyListIndex_error_indexError l i e hpi
      subst he
      exact ⟨PyVal.vNone, by simp [_stream_data, hs, pySubscriptInt, hpi]⟩
    · obtain ⟨fields, rfl⟩ := hd x (pyListIndex_ok_mem l i x hpi)
      cases key with
      | none =>
        exact ⟨PyVal.vNone, by simp [_stream_data, hs, pySubscriptInt, hpi, pyDictGet]⟩
      | some k =>
        exact ⟨(fields.lookup k).getD PyVal.vNone,
          by simp [_stream_data, hs, pySubscriptInt, hpi, pyDictGet]⟩
  · intro hpi
    simp [_stream_data, hs, pySubscriptInt, hpi]
  · intro fields hpi habs
    cases key with
    | none => simp [_stream_data, hs, pySubscriptInt, hpi, pyDictGet]
    | some k => simp [_stream_data, hs, pySubscriptInt, hpi, pyDictGet, habs k rfl]

/-- Witness for C6: index 5 is out of range of a one-descriptor stream
list, and the lookup answers `None` rather than raising. -/
theorem c6_stream_lookup_total_witness :
    _stream_data
      (MInfo.mk "clip.mov" [] (PyVal.vList [PyVal.vDict [("width", PyVal.vInt 1280)]])
        (PyVal.vDict []))
      5 (some "height") = Except.ok PyVal.vNone := by
  exact (c6_stream_lookup_total _ [PyVal.vDict [("width", PyVal.vInt 1280)]] 5 (some "height")
    rfl (by intro x hx; rw [List.mem_singleton.mp hx]; exact ⟨_, rfl⟩)).2.1 rfl

/-- Claim C4 (counterexample): the duration post-processing is not a
suffix check and not a pass-through.  With EXIF line
`Duration : 10s later` the looked-up value is the string `"10s later"`,
which does not end in `s`; the claim says it is passed through
unmodified, but the code tests `'s' in duration` (anywhere), strips the
last character, and `float("10s late")` raises `ValueError`. -/
theorem c4_duration_counterexample :
    (MInfo.mk "clip.mov" (exifParser "Duration : 10s later")
      (PyVal.vList []) (PyVal.vDict [])).duration = Except.error PyErr.valueError ∧
    (MInfo.mk "clip.mov" (exifParser "Duration : 10s later")
      (PyVal.vList []) (PyVal.vDict [])).duration ≠
      Except.ok (PyVal.vStr "10s later") := by
  refine ⟨rfl, fun h => ?_⟩
  rw [show (MInfo.mk "clip.mov" (exifParser "Duration : 10s later")
    (PyVal.vList []) (PyVal.vDict [])).duration = Except.error PyErr.valueError from rfl] at h
  simp at h

/-- Claim C4 (amended): `duration` applies the unified lookup with keys
`('Duration', 'duration')`; absence passes through as absence; a present
string is tested for containing `'s'` **anywhere**: if it does, the result
is the `float()` of the string with its last character dropped
(`ValueError` when `float()` rejects that prefix), and only a string
without any `'s'` passes through unmodified; a present numeric value makes
the membership test itself raise `TypeError`. -/
theorem c4_duration_amended (m : MInfo) :
    (_find_data m (some "Duration", some "duration") 0 = Except.ok PyVal.vNone →
      m.duration = Except.ok PyVal.vNone) ∧
    (∀ s, _find_data m (some "Duration", some "duration") 0 = Except.ok (PyVal.vStr s) →
      pyInS (PyVal.vStr s) = Except.ok false → m.duration = Except.ok (PyVal.vStr s)) ∧
    (∀ s s1 f, _find_data m (some "Duration", some "duration") 0 = Except.ok (PyVal.vStr s) →
      pyInS (PyVal.vStr s) = Except.ok true →
      pySliceDropLast (PyVal.vStr s) = Except.ok (PyVal.vStr s1) →
      pyFloatOfString s1 = some f →
      m.duration = Except.ok (PyVal.vFloat f)) ∧
    (∀ s s1, _find_data m (some "Duration", some "duration") 0 = Except.ok (PyVal.vStr s) →
      pyInS (PyVal.vStr s) = Except.ok true →
      pySliceDropLast (PyVal.vStr s) = Except.ok (PyVal.vStr s1) →
      pyFloatOfString s1 = none →
      m.duration = Except.error PyErr.valueError) ∧
    (∀ n, _find_data m (some "Duration", some "duration") 0 = Except.ok (PyVal.vInt n) →
      m.duration = Except.error PyErr.typeError) ∧
    (∀ f, _find_data m (some "Duration", some "duration") 0 = Except.ok (PyVal.vFloat f) →
      m.duration = Except.error PyErr.typeError) := by
  refine ⟨?_, ?_, ?_, ?_, ?_, ?_⟩
  · intro hd
    simp [MInfo.duration, hd]
  · intro s hd hc
    simp [MInfo.duration, hd, hc]
  · intro s s1 f hd hc hsl hf
    simp [MInfo.duration, hd, hc, hsl, pyFloatFn, hf]
  · intro s s1 hd hc hsl hf
    simp [MInfo.duration, hd, hc, hsl, pyFloatFn, hf]
  · intro n hd
    simp [MInfo.duration, hd, pyInS]
  · intro f hd
    simp [MInfo.duration, hd, pyInS]

/-- Witness for C4 (amended): the movie fixture's EXIF line
`Duration : 10.02 s` parses to the float `10.02` (the last character is
stripped and `float("10.02 ")` succeeds); and the EXIF line
`Duration : nans` yields the float `nan`, since `float("nan")` succeeds —
the value-error case needs a prefix that `float()` genuinely rejects. -/
theorem c4_duration_amended_witness :
    (MInfo.mk "clip.mov" (exifParser "Duration : 10.02 s")
      (PyVal.vList []) (PyVal.vDict [])).duration =
      Except.ok (PyVal.vFloat (.finite 1002 (-2))) ∧
    (MInfo.mk "clip.mov" (exifParser "Duration : nans")
      (PyVal.vList []) (PyVal.vDict [])).duration =
      Except.ok (PyVal.vFloat .nan) :=
  ⟨(c4_duration_amended
      (MInfo.mk "clip.mov" (exifParser "Duration : 10.02 s")
        (PyVal.vList []) (PyVal.vDict []))).2.2.1 "10.02 s" "10.02 "
      (.finite 1002 (-2)) rfl rfl rfl rfl,
   (c4_duration_amended
      (MInfo.mk "clip.mov" (exifParser "Duration : nans")
        (PyVal.vList []) (PyVal.vDict []))).2.2.1 "nans" "nan"
      PyFloat.nan rfl rfl rfl rfl⟩

/-- Claim C7: probe-output parsing is fatal on invalid JSON — whatever
parse error the JSON parser reports is propagated unchanged out of record
construction (there is no local recovery) — and on valid JSON holding
`streams` and `format` members those two values are stored directly in
the record, together with the parsed EXIF text. -/
theorem c7_probe_parse (jsonLoads : String → Except PyErr PyVal)
    (path exifOut probeOut : String) :
    (∀ e, jsonLoads probeOut = Except.error e →
      setup jsonLoads path exifOut probeOut = Except.error e) ∧
    (∀ fields sv fv, jsonLoads probeOut = Except.ok (PyVal.vDict fields) →
      fields.lookup "streams" = some sv →
      fields.lookup "format" = some fv →
      setup jsonLoads path exifOut probeOut =
        Except.ok (MInfo.mk path (exifParser exifOut) sv fv)) := by
  constructor
  · intro e he
    simp [setup, he]
  · intro fields sv fv hp hs hf
    simp [setup, hp, pySubscriptStr, hs, hf]

/-- Witness for C7: the concrete modelled `json.loads` on a well-formed
probe document stores `streams`/`format` directly, and on non-JSON text
the parse error surfaces out of construction. -/
theorem c7_probe_parse_witness :
    setup jsonLoadsModel "clip.mov" "" "\x7b\"streams\": [], \"format\": \x7b\x7d\x7d" =
      Except.ok (MInfo.mk "clip.mov" (exifParser "") (PyVal.vList []) (PyVal.vDict [])) ∧
    setup jsonLoadsModel "clip.mov" "" "not json" = Except.error PyErr.jsonError := by
  constructor
  · exact (c7_probe_parse jsonLoadsModel "clip.mov" ""
      "\x7b\"streams\": [], \"format\": \x7b\x7d\x7d").2
      [("streams", PyVal.vList []), ("format", PyVal.vDict [])]
      (PyVal.vList []) (PyVal.vDict []) rfl rfl rfl
  · exact (c7_probe_parse jsonLoadsModel "clip.mov" "" "not json").1 PyErr.jsonError rfl

/-- Claim C8 (counterexample): when both tools fail silently with empty
output, record construction does **not** complete: the empty string is
not valid JSON, so the probe parse raises and construction fails. -/
theorem c8_empty_probe_output_counterexample :
    setup jsonLoadsModel "clip.mov" "" "" = Except.error PyErr.jsonError := rfl

/-- Claim C8 (amended): a silent failure of the EXIF tool (empty output)
is indeed absorbed — construction completes, given parseable probe
output, and every EXIF lookup under a non-empty key is absent; but a
silent failure of the probe tool (empty output) is fatal, because the
empty string is not valid JSON and the parse error propagates. -/
theorem c8_silent_failure_amended (jsonLoads : String → Except PyErr PyVal)
    (path probeOut : String) :
    (jsonLoadsModel "" = Except.error PyErr.jsonError) ∧
    (∀ fields sv fv, jsonLoads probeOut = Except.ok (PyVal.vDict fields) →
      fields.lookup "streams" = some sv →
      fields.lookup "format" = some fv →
      setup jsonLoads path "" probeOut =
        Except.ok (MInfo.mk path (exifParser "") sv fv) ∧
      ∀ k : String, k ≠ "" →
        _exif_data (MInfo.mk path (exifParser "") sv fv) (some k) = PyVal.vNone) := by
  refine ⟨rfl, ?_⟩
  intro fields sv fv hp hs hf
  constructor
  · simp [setup, hp, pySubscriptStr, hs, hf]
  · intro k hk
    show exifLookupLoop (exifParser "") (some k) = PyVal.vNone
    rw [show exifParser "" = [("", PyVal.vStr "")] from rfl]
    simp only [exifLookupLoop, pyKeyEq, beq_iff_eq]
    rw [if_neg (Ne.symm hk)]

/-- Witness for C8 (amended): empty EXIF output with a well-formed probe
document constructs a record whose `Duration` EXIF lookup is absent. -/
theorem c8_silent_failure_witness :
    setup jsonLoadsModel "audio.wav" "" "\x7b\"streams\": [], \"format\": \x7b\x7d\x7d" =
      Except.ok (MInfo.mk "audio.wav" (exifParser "") (PyVal.vList []) (PyVal.vDict [])) ∧
    _exif_data (MInfo.mk "audio.wav" (exifParser "") (PyVal.vList []) (PyVal.vDict []))
      (some "Duration") = PyVal.vNone := by
  have h := (c8_silent_failure_amended jsonLoadsModel "audio.wav"
    "\x7b\"streams\": [], \"format\": \x7b\x7d\x7d").2
    [("streams", PyVal.vList []), ("format", PyVal.vDict [])]
    (PyVal.vList []) (PyVal.vDict []) rfl rfl rfl
  exact ⟨h.1, h.2 "Duration" (by simp)⟩
